import Mathlib

/-!
Verification of the transactional inventory and ledger engine of the
potion-shop service.

The embedding models the relational store as an explicit `ShopState`
record. Operations found in `src/api/admin.py` and `src/api/carts.py`
are translated directly; the `CartManager` helper module referenced by
`src/api/carts.py` is not part of the provided sources, so its
operations are modelled from the specification where indicated.
-/

set_option maxRecDepth 4000

/-- Types of ledger entries (`entry_type` column of `ledger_entries`). -/
inductive EntryType where
  | ADMIN_CHANGE
  | CART_VISIT
  | CART_CHECKOUT
  | BARREL_PURCHASE
  deriving DecidableEq, Repr

/-- The single `global_inventory` row (the State Snapshot). -/
structure Snapshot where
  gold : Int
  red_ml : Int
  green_ml : Int
  blue_ml : Int
  dark_ml : Int
  total_ml : Int
  total_potions : Int
  potion_capacity_units : Int
  ml_capacity_units : Int
  deriving DecidableEq, Repr

/-- A row of the `potions` catalog table. -/
structure Potion where
  sku : String
  name : String
  red_ml : Int
  green_ml : Int
  blue_ml : Int
  dark_ml : Int
  total_ml : Int
  price : Int
  description : String
  current_quantity : Int
  deriving DecidableEq, Repr

/-- A row of the append-only `ledger_entries` table. Per the design notes,
checkout records aggregate deltas only, so the potion delta is a single
signed integer. -/
structure LedgerEntry where
  entry_id : Nat
  time_reference : Nat
  entry_type : EntryType
  gold_change : Int
  red_ml_change : Int
  green_ml_change : Int
  blue_ml_change : Int
  dark_ml_change : Int
  potion_change : Int
  deriving DecidableEq, Repr

/-- Status of a cart: `OPEN` or terminal `CHECKED_OUT`. -/
inductive CartStatus where
  | OPEN
  | CHECKED_OUT
  deriving DecidableEq, Repr

/-- A row of the `carts` table. -/
structure Cart where
  cart_id : Nat
  customer_name : String
  character_class : String
  level : Int
  visit_id : Nat
  status : CartStatus
  created_at_time_reference : Nat
  deriving DecidableEq, Repr

/-- A row of the `cart_items` table: one SKU's requested quantity in a cart. -/
structure CartItem where
  cart_id : Nat
  item_sku : String
  quantity : Int
  deriving DecidableEq, Repr

/-- A row of the `customers` table. -/
structure CustomerRec where
  customer_name : String
  character_class : String
  level : Int
  deriving DecidableEq, Repr

/-- A row of the `visits` table. -/
structure Visit where
  visit_id : Nat
  time_reference : Nat
  deriving DecidableEq, Repr

/-- The whole relational store. Lists model tables; `game_times` models
`current_game_time` with the most recent tick first. The `next_cart_id`
and `next_entry_id` counters model the monotonic identifiers the
database assigns on insert. -/
structure ShopState where
  global_inventory : Snapshot
  potions : List Potion
  carts : List Cart
  cart_items : List CartItem
  ledger_entries : List LedgerEntry
  customers : List CustomerRec
  visits : List Visit
  game_times : List Nat
  next_cart_id : Nat
  next_entry_id : Nat
  deriving DecidableEq, Repr

/-- The `DEFAULT_POTIONS` constant of `src/api/admin.py`. -/
def DEFAULT_POTIONS : List Potion := [
  { sku := "GREEN_POTION", name := "Elixir of Vitality",
    red_ml := 0, green_ml := 100, blue_ml := 0, dark_ml := 0, total_ml := 100,
    price := 50, description := "Hypothesis: Restores vitality.", current_quantity := 0 },
  { sku := "BLUE_POTION", name := "Elixir of Wisdom",
    red_ml := 0, green_ml := 0, blue_ml := 100, dark_ml := 0, total_ml := 100,
    price := 50, description := "Hypothesis: Grants wisdom.", current_quantity := 0 },
  { sku := "RED_POTION", name := "Elixir of Strength",
    red_ml := 100, green_ml := 0, blue_ml := 0, dark_ml := 0, total_ml := 100,
    price := 50, description := "Hypothesis: Enhances strength.", current_quantity := 0 },
  { sku := "SHADOW_ELIXIR", name := "Shadow Elixir",
    red_ml := 0, green_ml := 0, blue_ml := 0, dark_ml := 100, total_ml := 100,
    price := 50, description := "Hypothesis Shadow magic.", current_quantity := 0 },
  { sku := "CYAN_POTION", name := "Cyan Elixir",
    red_ml := 0, green_ml := 50, blue_ml := 50, dark_ml := 0, total_ml := 100,
    price := 50, description := "Hypothesis: Grants both vitality and wisdom.", current_quantity := 0 },
  { sku := "YELLOW_POTION", name := "Sunburst Elixir",
    red_ml := 50, green_ml := 50, blue_ml := 0, dark_ml := 0, total_ml := 100,
    price := 50, description := "Hypothesis: Grants both strength and vitality.", current_quantity := 0 },
  { sku := "MAGENTA_POTION", name := "Magenta Elixir",
    red_ml := 50, green_ml := 0, blue_ml := 50, dark_ml := 0, total_ml := 100,
    price := 50, description := "Hypothesis: Grants both strength and wisdom.", current_quantity := 0 },
  { sku := "VERDANT_SHADOW_ELIXIR", name := "Verdant Shadow Elixir",
    red_ml := 0, green_ml := 50, blue_ml := 0, dark_ml := 50, total_ml := 100,
    price := 50, description := "Hypothesis: Grants both shadow and vitality", current_quantity := 0 },
  { sku := "AZURE_SHADOW_ELIXIR", name := "Azure Shadow Elixir",
    red_ml := 0, green_ml := 0, blue_ml := 50, dark_ml := 50, total_ml := 100,
    price := 50, description := "Hypothesis: Grants both shadow and wisdom.", current_quantity := 0 },
  { sku := "CRIMSON_SHADOW_ELIXIR", name := "Crimson Shadow Elixir",
    red_ml := 50, green_ml := 0, blue_ml := 0, dark_ml := 50, total_ml := 100,
    price := 50, description := "Hypothesis: Grants both shadow and strength.", current_quantity := 0 },
  { sku := "OBSIDIAN_ELIXIR", name := "Obsidian Elixir",
    red_ml := 25, green_ml := 25, blue_ml := 25, dark_ml := 25, total_ml := 100,
    price := 50, description := "Hypothesis: Grants every property.", current_quantity := 0 }
]

/-- The snapshot values the reset writes (`UPDATE global_inventory SET ...`
in `src/api/admin.py`). -/
def resetSnapshot : Snapshot :=
  { gold := 100, red_ml := 0, green_ml := 0, blue_ml := 0, dark_ml := 0,
    total_ml := 0, total_potions := 0,
    potion_capacity_units := 1, ml_capacity_units := 1 }

/-- Step 1 of reset: overwrite the `global_inventory` row. -/
def stepResetInventory (s : ShopState) : ShopState :=
  { s with global_inventory := resetSnapshot }

/-- Step 2 of reset: `UPDATE potions SET current_quantity = 0`. -/
def stepZeroQuantities (s : ShopState) : ShopState :=
  { s with potions := s.potions.map (fun p => { p with current_quantity := 0 }) }

/-- One iteration of the default-potion loop of reset: if a row with the
default's SKU exists, set its `current_quantity` to the default's value;
otherwise insert the default row. -/
def upsertDefault (d : Potion) (s : ShopState) : ShopState :=
  if s.potions.any (fun p => p.sku = d.sku) then
    { s with potions :=
        s.potions.map (fun p =>
          if p.sku = d.sku then { p with current_quantity := d.current_quantity } else p) }
  else
    { s with potions := s.potions ++ [d] }

/-- `DELETE FROM cart_items`. -/
def stepClearCartItems (s : ShopState) : ShopState := { s with cart_items := [] }

/-- `DELETE FROM carts`. -/
def stepClearCarts (s : ShopState) : ShopState := { s with carts := [] }

/-- `DELETE FROM ledger_entries`. -/
def stepClearLedger (s : ShopState) : ShopState := { s with ledger_entries := [] }

/-- `DELETE FROM customers`. -/
def stepClearCustomers (s : ShopState) : ShopState := { s with customers := [] }

/-- `DELETE FROM visits`. -/
def stepClearVisits (s : ShopState) : ShopState := { s with visits := [] }

/-- The default-potion loop of `reset()`: upsert each default in order. -/
def upsertAll (ds : List Potion) (s : ShopState) : ShopState :=
  ds.foldl (fun t d => upsertDefault d t) s

/-- The statements executed by `reset()` inside its single
`engine.begin()` transaction, in source order. -/
def resetSteps : List (ShopState → ShopState) :=
  [stepResetInventory, stepZeroQuantities]
    ++ DEFAULT_POTIONS.map upsertDefault
    ++ [stepClearCartItems, stepClearCarts, stepClearLedger,
        stepClearCustomers, stepClearVisits]

/-- The committed effect of a successful `reset()` transaction. -/
def resetApply (s : ShopState) : ShopState :=
  stepClearVisits (stepClearCustomers (stepClearLedger (stepClearCarts
    (stepClearCartItems (upsertAll DEFAULT_POTIONS
      (stepZeroQuantities (stepResetInventory s)))))))

lemma resetSteps_foldl (s : ShopState) :
    resetSteps.foldl (fun t f => f t) s = resetApply s := by
  simp [resetSteps, resetApply, upsertAll, List.foldl_append, List.foldl_map]

/-- Transaction runner: executes statements in order; if the statement at
the given index fails, the transaction aborts and every prior write is
rolled back (`engine.begin()` semantics). -/
def runTx (steps : List (ShopState → ShopState)) (fails : Nat → Bool)
    (i : Nat) (s : ShopState) : Option ShopState :=
  match steps with
  | [] => some s
  | f :: rest => if fails i then none else runTx rest fails (i + 1) (f s)

/-- The `reset` endpoint: run the transaction; on any exception the
handler reports a 500 server error (`false` here) and the store keeps
its prior state. -/
def resetEndpoint (fails : Nat → Bool) (s : ShopState) : ShopState × Bool :=
  match runTx resetSteps fails 0 s with
  | some s₂ => (s₂, true)
  | none => (s, false)

lemma runTx_some (steps : List (ShopState → ShopState)) (fails : Nat → Bool) :
    ∀ (i : Nat) (s s₂ : ShopState), runTx steps fails i s = some s₂ →
      s₂ = steps.foldl (fun t f => f t) s := by
  induction steps with
  | nil => intro i s s₂ h; simp [runTx] at h; simp [h]
  | cons f rest ih =>
      intro i s s₂ h
      simp only [runTx] at h
      by_cases hf : fails i
      · simp [hf] at h
      · simp [hf] at h
        simpa using ih (i + 1) (f s) s₂ h

lemma runTx_no_fail (steps : List (ShopState → ShopState)) (fails : Nat → Bool)
    (hnf : ∀ i, fails i = false) :
    ∀ (i : Nat) (s : ShopState),
      runTx steps fails i s = some (steps.foldl (fun t f => f t) s) := by
  induction steps with
  | nil => intro i s; simp [runTx]
  | cons f rest ih => intro i s; simp [runTx, hnf i, ih]

lemma upsertDefault_global (d : Potion) (s : ShopState) :
    (upsertDefault d s).global_inventory = s.global_inventory := by
  unfold upsertDefault; split <;> rfl

lemma upsertDefault_frame (d : Potion) (s : ShopState) :
    (upsertDefault d s).carts = s.carts ∧
    (upsertDefault d s).cart_items = s.cart_items ∧
    (upsertDefault d s).ledger_entries = s.ledger_entries ∧
    (upsertDefault d s).customers = s.customers ∧
    (upsertDefault d s).visits = s.visits := by
  unfold upsertDefault; split <;> exact ⟨rfl, rfl, rfl, rfl, rfl⟩

lemma upsertAll_global (ds : List Potion) (s : ShopState) :
    (upsertAll ds s).global_inventory = s.global_inventory := by
  induction ds generalizing s with
  | nil => rfl
  | cons d rest ih =>
      simp only [upsertAll, List.foldl_cons]
      rw [show (List.foldl (fun t d => upsertDefault d t) (upsertDefault d s) rest)
            = upsertAll rest (upsertDefault d s) from rfl]
      rw [ih, upsertDefault_global]

lemma clearSteps_global (t : ShopState) :
    (stepClearVisits (stepClearCustomers (stepClearLedger (stepClearCarts
      (stepClearCartItems t))))).global_inventory = t.global_inventory := rfl

lemma clearSteps_potions (t : ShopState) :
    (stepClearVisits (stepClearCustomers (stepClearLedger (stepClearCarts
      (stepClearCartItems t))))).potions = t.potions := rfl

/-- The snapshot after a committed reset is the fixed reset snapshot:
no later statement of the transaction touches `global_inventory`. -/
lemma resetApply_snapshot (s : ShopState) :
    (resetApply s).global_inventory = resetSnapshot := by
  unfold resetApply
  rw [clearSteps_global, upsertAll_global]
  rfl

/-- The ledger after a committed reset is empty: `reset()` truncates
`ledger_entries` and appends nothing afterwards. -/
lemma resetApply_ledger (s : ShopState) :
    (resetApply s).ledger_entries = [] := by
  rfl

/-- Carts, cart items, customers and visits are all cleared by reset. -/
lemma resetApply_clears (s : ShopState) :
    (resetApply s).carts = [] ∧ (resetApply s).cart_items = [] ∧
    (resetApply s).customers = [] ∧ (resetApply s).visits = [] := by
  exact ⟨rfl, rfl, rfl, rfl⟩

/-- A leftover catalog row whose SKU is not a default SKU. -/
def exFoo : Potion :=
  { sku := "FOO_POTION", name := "Foo", red_ml := 10, green_ml := 0,
    blue_ml := 0, dark_ml := 0, total_ml := 10, price := 10,
    description := "leftover", current_quantity := 5 }

/-- A pre-existing `GREEN_POTION` row with a stale price and stock 2. -/
def exGreen : Potion :=
  { sku := "GREEN_POTION", name := "Elixir of Vitality", red_ml := 0,
    green_ml := 100, blue_ml := 0, dark_ml := 0, total_ml := 100,
    price := 999, description := "old", current_quantity := 2 }

/-- An open cart used in concrete instantiations. -/
def exCart : Cart :=
  { cart_id := 1, customer_name := "Ada", character_class := "mage",
    level := 3, visit_id := 1, status := CartStatus.OPEN,
    created_at_time_reference := 1 }

/-- A concrete store used to instantiate theorems: it holds a non-default
catalog row, a default SKU with a non-default price, an open cart with a
line item, a ledger entry, a customer and a visit. -/
def exState : ShopState :=
  { global_inventory :=
      { gold := 37, red_ml := 10, green_ml := 20, blue_ml := 0, dark_ml := 0,
        total_ml := 30, total_potions := 7,
        potion_capacity_units := 2, ml_capacity_units := 3 },
    potions := [exFoo, exGreen],
    carts := [exCart],
    cart_items := [ { cart_id := 1, item_sku := "GREEN_POTION", quantity := 1 } ],
    ledger_entries :=
      [ { entry_id := 1, time_reference := 1, entry_type := EntryType.BARREL_PURCHASE,
          gold_change := -63, red_ml_change := 10, green_ml_change := 20,
          blue_ml_change := 0, dark_ml_change := 0, potion_change := 7 } ],
    customers := [ { customer_name := "Ada", character_class := "mage", level := 3 } ],
    visits := [ { visit_id := 1, time_reference := 1 } ],
    game_times := [2, 1],
    next_cart_id := 2,
    next_entry_id := 2 }

/-- C5: after `reset()` completes successfully, the State Snapshot holds
gold = 100, total_potions = 0, total_ml = 0, all four color ml fields 0,
potion_capacity_units = 1 and ml_capacity_units = 1. -/
theorem reset_snapshot_postcondition (s : ShopState) :
    (resetApply s).global_inventory.gold = 100 ∧
    (resetApply s).global_inventory.total_potions = 0 ∧
    (resetApply s).global_inventory.total_ml = 0 ∧
    (resetApply s).global_inventory.red_ml = 0 ∧
    (resetApply s).global_inventory.green_ml = 0 ∧
    (resetApply s).global_inventory.blue_ml = 0 ∧
    (resetApply s).global_inventory.dark_ml = 0 ∧
    (resetApply s).global_inventory.potion_capacity_units = 1 ∧
    (resetApply s).global_inventory.ml_capacity_units = 1 := by
  rw [resetApply_snapshot]
  exact ⟨rfl, rfl, rfl, rfl, rfl, rfl, rfl, rfl, rfl⟩

/-- C8: `reset()` runs all of its statements inside one transaction: for
every starting state and every pattern of statement failures, the
endpoint either commits every effect (yielding exactly the fully-reset
state with a success response) or reports a server error with the prior
state fully preserved; if no statement fails, it commits. -/
theorem reset_is_atomic (fails : Nat → Bool) (s : ShopState) :
    (resetEndpoint fails s = (resetApply s, true) ∨
      resetEndpoint fails s = (s, false)) ∧
    ((∀ i, fails i = false) → resetEndpoint fails s = (resetApply s, true)) := by
  constructor
  · unfold resetEndpoint
    cases h : runTx resetSteps fails 0 s with
    | none => right; rfl
    | some s₂ =>
        left
        have := runTx_some resetSteps fails 0 s s₂ h
        rw [this, resetSteps_foldl]
  · intro hnf
    unfold resetEndpoint
    rw [runTx_no_fail resetSteps fails hnf 0 s, resetSteps_foldl]

/-- Witness for C8: with no failing statement, resetting the concrete
example store commits and lands in the fully-reset state. -/
theorem reset_is_atomic_witness :
    resetEndpoint (fun _ => false) exState = (resetApply exState, true) :=
  (reset_is_atomic (fun _ => false) exState).2 (fun _ => rfl)

/-- Counterexample to C2: after resetting the concrete example store the
ledger does not contain exactly one entry — `reset()` truncates
`ledger_entries` and never appends an `ADMIN_CHANGE` grant. -/
theorem reset_ledger_not_single :
    (resetApply exState).ledger_entries.length ≠ 1 := by
  rw [resetApply_ledger]
  decide

/-- C2 (amended): after `reset()` completes successfully the ledger is
empty — the reset truncates `ledger_entries` and writes no
`ADMIN_CHANGE` entry at all. -/
theorem reset_leaves_ledger_empty (s : ShopState) :
    (resetApply s).ledger_entries = [] :=
  resetApply_ledger s

lemma upsertDefault_quantities (d : Potion) (s : ShopState)
    (hd : d.current_quantity = 0)
    (hs : ∀ p ∈ s.potions, p.current_quantity = 0) :
    ∀ p ∈ (upsertDefault d s).potions, p.current_quantity = 0 := by
  intro p hp
  unfold upsertDefault at hp
  split at hp
  · simp only [List.mem_map] at hp
    obtain ⟨q, hq, rfl⟩ := hp
    by_cases h : q.sku = d.sku
    · simp [h, hd]
    · simp only [h, if_false]
      exact hs q hq
  · simp only [List.mem_append, List.mem_singleton] at hp
    rcases hp with hp | rfl
    · exact hs p hp
    · exact hd

lemma upsertDefault_pres_mono (d : Potion) (s : ShopState) (x : String)
    (h : ∃ p ∈ s.potions, p.sku = x) :
    ∃ p ∈ (upsertDefault d s).potions, p.sku = x := by
  obtain ⟨q, hq, hqx⟩ := h
  unfold upsertDefault
  split
  · refine ⟨if q.sku = d.sku then { q with current_quantity := d.current_quantity } else q,
      ?_, ?_⟩
    · simp only [List.mem_map]
      exact ⟨q, hq, rfl⟩
    · by_cases h : q.sku = d.sku
      · rw [if_pos h]; exact hqx
      · rw [if_neg h]; exact hqx
  · exact ⟨q, by simp [hq], hqx⟩

lemma upsertDefault_pres_self (d : Potion) (s : ShopState) :
    ∃ p ∈ (upsertDefault d s).potions, p.sku = d.sku := by
  unfold upsertDefault
  split
  · rename_i hc
    simp only [List.any_eq_true, decide_eq_true_eq] at hc
    obtain ⟨q, hq, hqd⟩ := hc
    refine ⟨{ q with current_quantity := d.current_quantity }, ?_, hqd⟩
    simp only [List.mem_map]
    exact ⟨q, hq, by simp [hqd]⟩
  · exact ⟨d, by simp, rfl⟩

lemma upsertDefault_sku_sub (d : Potion) (s : ShopState) :
    ∀ p ∈ (upsertDefault d s).potions,
      p.sku ∈ s.potions.map (fun q => q.sku) ∨ p.sku = d.sku := by
  intro p hp
  unfold upsertDefault at hp
  split at hp
  · simp only [List.mem_map] at hp
    obtain ⟨q, hq, rfl⟩ := hp
    left
    by_cases h : q.sku = d.sku <;>
      simp only [h, if_true, if_false] <;>
      exact List.mem_map.mpr ⟨q, hq, by simp [h]⟩
  · simp only [List.mem_append, List.mem_singleton] at hp
    rcases hp with hp | rfl
    · exact Or.inl (List.mem_map.mpr ⟨p, hp, rfl⟩)
    · exact Or.inr rfl

lemma upsertDefault_skus_pairwise (d : Potion) (s : ShopState)
    (h : (s.potions.map (fun q => q.sku)).Pairwise (fun a b => a ≠ b)) :
    ((upsertDefault d s).potions.map (fun q => q.sku)).Pairwise (fun a b => a ≠ b) := by
  unfold upsertDefault
  split
  · have : ((s.potions.map (fun p =>
        if p.sku = d.sku then { p with current_quantity := d.current_quantity } else p)).map
          (fun q => q.sku)) = s.potions.map (fun q => q.sku) := by
      rw [List.map_map]
      refine List.map_congr_left ?_
      intro p _
      by_cases hpd : p.sku = d.sku <;> simp [hpd]
    simpa [this] using h
  · rename_i hc
    simp only [List.any_eq_true, decide_eq_true_eq] at hc
    push_neg at hc
    simp only [List.map_append, List.map_cons, List.map_nil]
    rw [List.pairwise_append]
    refine ⟨h, by simp, ?_⟩
    intro x hx y hy
    simp only [List.mem_singleton] at hy
    subst hy
    simp only [List.mem_map] at hx
    obtain ⟨q, hq, rfl⟩ := hx
    exact hc q hq

lemma upsertAll_cons (d : Potion) (ds : List Potion) (s : ShopState) :
    upsertAll (d :: ds) s = upsertAll ds (upsertDefault d s) := rfl

lemma upsertAll_quantities (ds : List Potion) (s : ShopState)
    (hd : ∀ d ∈ ds, d.current_quantity = 0)
    (hs : ∀ p ∈ s.potions, p.current_quantity = 0) :
    ∀ p ∈ (upsertAll ds s).potions, p.current_quantity = 0 := by
  induction ds generalizing s with
  | nil => exact hs
  | cons d rest ih =>
      rw [upsertAll_cons]
      exact ih (upsertDefault d s) (fun e he => hd e (List.mem_cons_of_mem d he))
        (upsertDefault_quantities d s (hd d (List.mem_cons_self d rest)) hs)

lemma upsertAll_pres_mono (ds : List Potion) (s : ShopState) (x : String)
    (h : ∃ p ∈ s.potions, p.sku = x) :
    ∃ p ∈ (upsertAll ds s).potions, p.sku = x := by
  induction ds generalizing s with
  | nil => exact h
  | cons d rest ih =>
      rw [upsertAll_cons]
      exact ih (upsertDefault d s) (upsertDefault_pres_mono d s x h)

lemma upsertAll_pres (ds : List Potion) (s : ShopState) :
    ∀ d ∈ ds, ∃ p ∈ (upsertAll ds s).potions, p.sku = d.sku := by
  induction ds generalizing s with
  | nil => intro d hd; cases hd
  | cons e rest ih =>
      intro d hd
      rcases List.mem_cons.mp hd with rfl | hd
      · rw [upsertAll_cons]
        exact upsertAll_pres_mono rest (upsertDefault d s) d.sku
          (upsertDefault_pres_self d s)
      · rw [upsertAll_cons]
        exact ih (upsertDefault e s) d hd

lemma upsertAll_sku_sub (ds : List Potion) (s : ShopState) :
    ∀ x ∈ (upsertAll ds s).potions.map (fun q => q.sku),
      x ∈ s.potions.map (fun q => q.sku) ∨ x ∈ ds.map (fun d => d.sku) := by
  induction ds generalizing s with
  | nil => intro x hx; exact Or.inl hx
  | cons d rest ih =>
      intro x hx
      rw [upsertAll_cons] at hx
      rcases ih (upsertDefault d s) x hx with h | h
      · simp only [List.mem_map] at h
        obtain ⟨q, hq, rfl⟩ := h
        rcases upsertDefault_sku_sub d s q hq with h₂ | h₂
        · exact Or.inl h₂
        · exact Or.inr (by simp [h₂])
      · exact Or.inr (by simp [h])

lemma upsertAll_skus_pairwise (ds : List Potion) (s : ShopState)
    (h : (s.potions.map (fun q => q.sku)).Pairwise (fun a b => a ≠ b)) :
    ((upsertAll ds s).potions.map (fun q => q.sku)).Pairwise (fun a b => a ≠ b) := by
  induction ds generalizing s with
  | nil => exact h
  | cons d rest ih =>
      rw [upsertAll_cons]
      exact ih (upsertDefault d s) (upsertDefault_skus_pairwise d s h)

lemma stepZeroQuantities_skus (s : ShopState) :
    (stepZeroQuantities s).potions.map (fun q => q.sku)
      = s.potions.map (fun q => q.sku) := by
  unfold stepZeroQuantities
  simp only [List.map_map]
  exact List.map_congr_left (fun p _ => rfl)

lemma stepZeroQuantities_quantities (s : ShopState) :
    ∀ p ∈ (stepZeroQuantities s).potions, p.current_quantity = 0 := by
  intro p hp
  unfold stepZeroQuantities at hp
  simp only [List.mem_map] at hp
  obtain ⟨q, _, rfl⟩ := hp
  rfl

lemma resetApply_potions (s : ShopState) :
    (resetApply s).potions
      = (upsertAll DEFAULT_POTIONS (stepZeroQuantities (stepResetInventory s))).potions := by
  unfold resetApply
  rw [clearSteps_potions]

lemma DEFAULT_POTIONS_quantities : ∀ d ∈ DEFAULT_POTIONS, d.current_quantity = 0 := by
  decide

lemma potion_qty0_eta (p : Potion) (h : p.current_quantity = 0) :
    ({ p with current_quantity := 0 } : Potion) = p := by
  cases p
  subst h
  rfl

lemma upsertDefault_mem_qty0 (d : Potion) (s : ShopState) (p : Potion)
    (hd : d.current_quantity = 0) (hp0 : p.current_quantity = 0)
    (hp : p ∈ s.potions) : p ∈ (upsertDefault d s).potions := by
  unfold upsertDefault
  split
  · refine List.mem_map.mpr ⟨p, hp, ?_⟩
    by_cases h : p.sku = d.sku
    · rw [if_pos h, hd]
      exact potion_qty0_eta p hp0
    · rw [if_neg h]
  · exact List.mem_append_left _ hp

lemma upsertAll_mem_qty0 (ds : List Potion) (s : ShopState) (p : Potion)
    (hq : ∀ x ∈ ds, x.current_quantity = 0) (hp0 : p.current_quantity = 0)
    (hp : p ∈ s.potions) : p ∈ (upsertAll ds s).potions := by
  induction ds generalizing s with
  | nil => exact hp
  | cons d rest ih =>
      rw [upsertAll_cons]
      exact ih (upsertDefault d s) (fun x hx => hq x (List.mem_cons_of_mem d hx))
        (upsertDefault_mem_qty0 d s p (hq d (List.mem_cons_self d rest)) hp0 hp)

lemma upsertAll_insert_missing (ds : List Potion) (s : ShopState) (d : Potion)
    (hd : d ∈ ds)
    (hdist : (ds.map (fun e => e.sku)).Pairwise (fun a b => a ≠ b))
    (hq : ∀ x ∈ ds, x.current_quantity = 0)
    (habs : ¬ d.sku ∈ s.potions.map (fun p => p.sku)) :
    d ∈ (upsertAll ds s).potions := by
  induction ds generalizing s with
  | nil => cases hd
  | cons e rest ih =>
      simp only [List.map_cons, List.pairwise_cons] at hdist
      rw [upsertAll_cons]
      rcases List.mem_cons.mp hd with rfl | hd₂
      · have hcond : ¬ ((s.potions.any (fun p => p.sku = d.sku)) = true) := by
          intro hany
          obtain ⟨p, hp, hps⟩ := List.any_eq_true.mp hany
          exact habs (List.mem_map.mpr ⟨p, hp, by simpa using hps⟩)
        have hins : d ∈ (upsertDefault d s).potions := by
          unfold upsertDefault
          rw [if_neg hcond]
          exact List.mem_append_right _ (by simp)
        exact upsertAll_mem_qty0 rest (upsertDefault d s) d
          (fun x hx => hq x (List.mem_cons_of_mem d hx))
          (hq d (List.mem_cons_self d rest)) hins
      · have hne : ¬ (e.sku = d.sku) :=
          hdist.1 d.sku (List.mem_map.mpr ⟨d, hd₂, rfl⟩)
        have habs₂ : ¬ d.sku ∈ (upsertDefault e s).potions.map (fun p => p.sku) := by
          intro hmem
          obtain ⟨p, hp, hps⟩ := List.mem_map.mp hmem
          rcases upsertDefault_sku_sub e s p hp with h₂ | h₂
          · exact habs (hps ▸ h₂)
          · exact hne (h₂.symm.trans hps)
        exact ih (upsertDefault e s) hd₂ hdist.2
          (fun x hx => hq x (List.mem_cons_of_mem e hx)) habs₂

lemma DEFAULT_POTIONS_skus_distinct :
    (DEFAULT_POTIONS.map (fun e => e.sku)).Pairwise (fun a b => a ≠ b) := by
  decide

/-- Counterexample to C6: resetting the concrete example store leaves a
row whose SKU is not among the default SKUs (`FOO_POTION` survives the
reset) and leaves the pre-existing `GREEN_POTION` row at its old price
999 instead of the default price 50. -/
theorem reset_catalog_not_exactly_defaults :
    (∃ p ∈ (resetApply exState).potions,
        p.sku ∉ DEFAULT_POTIONS.map (fun d => d.sku)) ∧
    (∃ p ∈ (resetApply exState).potions, p.sku = "GREEN_POTION" ∧ p.price = 999) := by
  rw [resetApply_potions]
  decide

/-- C6 (amended): after `reset()` every catalog row has
`current_quantity = 0` and every default SKU is present; the upsert
introduces no SKU beyond the pre-existing ones and the defaults, creates
no duplicate SKU rows when the prior catalog had none, and inserts every
default SKU missing from the prior catalog exactly as its default row
(in particular with price 50). However, every pre-existing row — default
SKU or not — is retained with all fields except `current_quantity`
unchanged, so non-default SKUs survive the reset and pre-existing rows
keep their old price (see the counterexample). -/
theorem reset_catalog_defaults (s : ShopState) :
    (∀ p ∈ (resetApply s).potions, p.current_quantity = 0) ∧
    (∀ d ∈ DEFAULT_POTIONS, ∃ p ∈ (resetApply s).potions, p.sku = d.sku) ∧
    (∀ p ∈ (resetApply s).potions,
        p.sku ∈ s.potions.map (fun q => q.sku) ∨
        p.sku ∈ DEFAULT_POTIONS.map (fun d => d.sku)) ∧
    ((s.potions.map (fun q => q.sku)).Pairwise (fun a b => a ≠ b) →
      ((resetApply s).potions.map (fun q => q.sku)).Pairwise (fun a b => a ≠ b)) ∧
    (∀ p ∈ s.potions,
      ({ p with current_quantity := 0 } : Potion) ∈ (resetApply s).potions) ∧
    (∀ d ∈ DEFAULT_POTIONS, ¬ d.sku ∈ s.potions.map (fun q => q.sku) →
      d ∈ (resetApply s).potions) := by
  have hz : ∀ p ∈ (stepZeroQuantities (stepResetInventory s)).potions,
      p.current_quantity = 0 := stepZeroQuantities_quantities (stepResetInventory s)
  have hsk : (stepZeroQuantities (stepResetInventory s)).potions.map (fun q => q.sku)
      = s.potions.map (fun q => q.sku) := stepZeroQuantities_skus (stepResetInventory s)
  refine ⟨?_, ?_, ?_, ?_, ?_, ?_⟩
  · rw [resetApply_potions]
    exact upsertAll_quantities DEFAULT_POTIONS _ DEFAULT_POTIONS_quantities hz
  · intro d hd
    rw [resetApply_potions]
    exact upsertAll_pres DEFAULT_POTIONS _ d hd
  · intro p hp
    rw [resetApply_potions] at hp
    have := upsertAll_sku_sub DEFAULT_POTIONS _ p.sku (List.mem_map.mpr ⟨p, hp, rfl⟩)
    rwa [hsk] at this
  · intro hpw
    rw [resetApply_potions]
    exact upsertAll_skus_pairwise DEFAULT_POTIONS _ (by rwa [hsk])
  · intro p hp
    rw [resetApply_potions]
    exact upsertAll_mem_qty0 DEFAULT_POTIONS _ _ DEFAULT_POTIONS_quantities rfl
      (List.mem_map.mpr ⟨p, hp, rfl⟩)
  · intro d hd habs
    rw [resetApply_potions]
    refine upsertAll_insert_missing DEFAULT_POTIONS _ d hd
      DEFAULT_POTIONS_skus_distinct DEFAULT_POTIONS_quantities ?_
    rw [hsk]
    exact habs

/-- Witness for C6 (amended): on the concrete example store the post-reset
catalog SKUs are pairwise distinct, the surviving `FOO_POTION` row is the
old row with only its quantity zeroed, and `BLUE_POTION`, which was
missing before the reset, is inserted exactly as its default row with
price 50. -/
theorem reset_catalog_defaults_witness :
    ((resetApply exState).potions.map (fun q => q.sku)).Pairwise (fun a b => a ≠ b) ∧
    ({ exFoo with current_quantity := 0 } : Potion) ∈ (resetApply exState).potions ∧
    ({ sku := "BLUE_POTION", name := "Elixir of Wisdom",
       red_ml := 0, green_ml := 0, blue_ml := 100, dark_ml := 0, total_ml := 100,
       price := 50, description := "Hypothesis: Grants wisdom.",
       current_quantity := 0 } : Potion) ∈ (resetApply exState).potions :=
  ⟨(reset_catalog_defaults exState).2.2.2.1 (by decide),
   (reset_catalog_defaults exState).2.2.2.2.1 exFoo (by decide),
   (reset_catalog_defaults exState).2.2.2.2.2 _ (by decide) (by decide)⟩

/-- Error taxonomy of the Cart Lifecycle Manager (spec section 7).
`ServerError` stands for the 500 the HTTP layer reports when a
collaborator lookup (the current-game-time read) fails. -/
inductive ShopError where
  | CartNotFound
  | CartAlreadyCheckedOut
  | EmptyCart
  | InsufficientStock
  | UnknownSku
  | ServerError
  deriving DecidableEq, Repr

/-- Result of a successful checkout. -/
structure CheckoutResult where
  total_potions_bought : Int
  total_gold_paid : Int
  deriving DecidableEq, Repr

/-- Modelled from the spec: `CartManager.validate_cart_status` is not in
the provided sources; per spec section 4.4 an operation fails with
`CartNotFound` when the cart does not exist and with
`CartAlreadyCheckedOut` when its status is terminal. -/
def validate_cart_status (s : ShopState) (cart_id : Nat) : Except ShopError Cart :=
  match s.carts.find? (fun c => c.cart_id = cart_id) with
  | none => Except.error ShopError.CartNotFound
  | some c =>
      if c.status = CartStatus.CHECKED_OUT then Except.error ShopError.CartAlreadyCheckedOut
      else Except.ok c

/-- Post-state of a deletion of a line item (no-op if absent). -/
def deleteItem (s : ShopState) (cart_id : Nat) (item_sku : String) : ShopState :=
  { s with cart_items :=
      s.cart_items.filter (fun it => ¬ (it.cart_id = cart_id ∧ it.item_sku = item_sku)) }

/-- Post-state of an update of an existing line item's quantity. -/
def updateItem (s : ShopState) (cart_id : Nat) (item_sku : String) (quantity : Int) :
    ShopState :=
  { s with cart_items := s.cart_items.map (fun it =>
      if it.cart_id = cart_id ∧ it.item_sku = item_sku
      then { it with quantity := quantity } else it) }

/-- Post-state of an insertion of a new line item. -/
def insertItem (s : ShopState) (cart_id : Nat) (item_sku : String) (quantity : Int) :
    ShopState :=
  { s with cart_items := s.cart_items ++
      [{ cart_id := cart_id, item_sku := item_sku, quantity := quantity }] }

/-- Modelled from the spec: body of `set_item_quantity` after the cart and
SKU checks: quantity 0 deletes, otherwise update if present else insert. -/
def applyItemChange (s : ShopState) (cart_id : Nat) (item_sku : String)
    (quantity : Int) : ShopState :=
  if quantity = 0 then deleteItem s cart_id item_sku
  else if s.cart_items.any (fun it => it.cart_id = cart_id ∧ it.item_sku = item_sku) then
    updateItem s cart_id item_sku quantity
  else insertItem s cart_id item_sku quantity

/-- Modelled from the spec: `CartManager.update_cart_item` is not in the
provided sources; per spec section 4.4, after the cart and SKU checks,
quantity 0 deletes the line item if present (no-op if absent) and a
positive quantity upserts it; inventory, gold and the ledger are not
touched. The time reference parameter is read by the route but the spec
records no write that uses it. -/
def set_item_quantity (s : ShopState) (cart_id : Nat) (item_sku : String)
    (quantity : Int) (_time_reference : Nat) : Except ShopError ShopState :=
  match validate_cart_status s cart_id with
  | Except.error e => Except.error e
  | Except.ok _ =>
      if ¬ s.potions.any (fun p => p.sku = item_sku) then Except.error ShopError.UnknownSku
      else Except.ok (applyItemChange s cart_id item_sku quantity)

/-- Modelled from the spec: resolution of each line item against the
catalog, failing when a SKU is unknown. -/
def resolveItems (potions : List Potion) : List CartItem → Option (List (CartItem × Potion))
  | [] => some []
  | it :: rest =>
      match potions.find? (fun p => p.sku = it.item_sku) with
      | none => none
      | some p =>
          match resolveItems potions rest with
          | none => none
          | some ps => some ((it, p) :: ps)

/-- Modelled from the spec: `CartManager.process_checkout` is not in the
provided sources; per spec section 4.4 it validates the cart, fails with
`EmptyCart` on no line items, fails with `InsufficientStock` when any
requested quantity exceeds the SKU's `current_quantity`, and otherwise,
in one transaction, decrements each potion's quantity, adds the gold
paid to the snapshot, subtracts the potions bought from the snapshot,
appends exactly one aggregate `CART_CHECKOUT` ledger entry and marks the
cart `CHECKED_OUT`. The pieces are split into named definitions below;
`process_checkout` assembles them. -/
def itemsOf (s : ShopState) (cart_id : Nat) : List CartItem :=
  s.cart_items.filter (fun it => it.cart_id = cart_id)

/-- Totals of a checkout:
`total_gold_paid = sum of price * quantity` over the resolved pairs and
`total_potions_bought = sum of quantity` over the line items. -/
def checkoutTotals (items : List CartItem) (pairs : List (CartItem × Potion)) :
    CheckoutResult :=
  { total_potions_bought := (items.map (fun it => it.quantity)).sum,
    total_gold_paid := (pairs.map (fun ip => ip.2.price * ip.1.quantity)).sum }

/-- The single aggregate `CART_CHECKOUT` ledger entry of a checkout. -/
def checkoutEntry (s : ShopState) (time_reference : Nat) (r : CheckoutResult) :
    LedgerEntry :=
  { entry_id := s.next_entry_id, time_reference := time_reference,
    entry_type := EntryType.CART_CHECKOUT,
    gold_change := r.total_gold_paid,
    red_ml_change := 0, green_ml_change := 0,
    blue_ml_change := 0, dark_ml_change := 0,
    potion_change := - r.total_potions_bought }

/-- Decrement of one catalog row by the quantity its SKU is requested at,
if any. -/
def decPotion (items : List CartItem) (p : Potion) : Potion :=
  match items.find? (fun it => it.item_sku = p.sku) with
  | some it => { p with current_quantity := p.current_quantity - it.quantity }
  | none => p

/-- Committed post-state of a successful checkout: each potion's quantity
decremented by the requested amount, gold incremented, the potion total
decremented, one ledger entry appended, the cart marked `CHECKED_OUT`. -/
def checkoutApply (s : ShopState) (cart_id : Nat) (time_reference : Nat)
    (items : List CartItem) (r : CheckoutResult) : ShopState :=
  { s with
    potions := s.potions.map (decPotion items),
    global_inventory := { s.global_inventory with
      gold := s.global_inventory.gold + r.total_gold_paid,
      total_potions := s.global_inventory.total_potions - r.total_potions_bought },
    carts := s.carts.map (fun c =>
      if c.cart_id = cart_id
      then { c with status := CartStatus.CHECKED_OUT } else c),
    ledger_entries := s.ledger_entries ++ [checkoutEntry s time_reference r],
    next_entry_id := s.next_entry_id + 1 }

def process_checkout (s : ShopState) (cart_id : Nat) (_payment : String)
    (time_reference : Nat) : Except ShopError (ShopState × CheckoutResult) :=
  match validate_cart_status s cart_id with
  | Except.error e => Except.error e
  | Except.ok _ =>
      if (itemsOf s cart_id).isEmpty then Except.error ShopError.EmptyCart
      else
        match resolveItems s.potions (itemsOf s cart_id) with
        | none => Except.error ShopError.UnknownSku
        | some pairs =>
            if pairs.any (fun ip => ip.2.current_quantity < ip.1.quantity) then
              Except.error ShopError.InsufficientStock
            else
              Except.ok
                (checkoutApply s cart_id time_reference (itemsOf s cart_id)
                  (checkoutTotals (itemsOf s cart_id) pairs),
                 checkoutTotals (itemsOf s cart_id) pairs)

/-- Modelled from the spec: `CartManager.create_cart` is not in the
provided sources; per the route in `src/api/carts.py` it reads the most
recent game time and visit and inserts a fresh `OPEN` cart. -/
def create_cart (s : ShopState) (cust : CustomerRec) :
    Except ShopError (ShopState × Nat) :=
  match s.game_times.head?, s.visits.head? with
  | some t, some v =>
      Except.ok
        ({ s with
            carts := s.carts ++
              [{ cart_id := s.next_cart_id, customer_name := cust.customer_name,
                 character_class := cust.character_class, level := cust.level,
                 visit_id := v.visit_id, status := CartStatus.OPEN,
                 created_at_time_reference := t }],
            next_cart_id := s.next_cart_id + 1 },
         s.next_cart_id)
  | _, _ => Except.error ShopError.ServerError

/-- Modelled from the spec: `CartManager.record_customer_visit` is not in
the provided sources; per the route it records the batch of customers
for a visit at the most recent game time. Per the data model, ledger
entries are created only by checkout and reset, so no ledger entry is
written. -/
def record_customer_visit (s : ShopState) (visit_id : Nat)
    (custs : List CustomerRec) : Except ShopError ShopState :=
  match s.game_times.head? with
  | none => Except.error ShopError.ServerError
  | some t =>
      Except.ok { s with
        visits := s.visits ++ [{ visit_id := visit_id, time_reference := t }],
        customers := s.customers ++ custs }

/-- The `checkout` route: on any error the transaction is rolled back and
the store keeps its prior state. -/
def checkoutRun (s : ShopState) (cart_id : Nat) (payment : String) :
    ShopState × Except ShopError CheckoutResult :=
  match s.game_times.head? with
  | none => (s, Except.error ShopError.ServerError)
  | some t =>
      match process_checkout s cart_id payment t with
      | Except.error e => (s, Except.error e)
      | Except.ok (s₂, r) => (s₂, Except.ok r)

/-- The `set_item_quantity` route: on any error the store keeps its prior
state. -/
def setItemRun (s : ShopState) (cart_id : Nat) (item_sku : String)
    (quantity : Int) : ShopState :=
  match s.game_times.head? with
  | none => s
  | some t =>
      match set_item_quantity s cart_id item_sku quantity t with
      | Except.error _ => s
      | Except.ok s₂ => s₂

/-- The `create_cart` route: on any error the store keeps its prior state. -/
def createCartRun (s : ShopState) (cust : CustomerRec) : ShopState :=
  match create_cart s cust with
  | Except.error _ => s
  | Except.ok (s₂, _) => s₂

/-- The `post_visits` route: on any error the store keeps its prior state. -/
def visitRun (s : ShopState) (visit_id : Nat) (custs : List CustomerRec) : ShopState :=
  match record_customer_visit s visit_id custs with
  | Except.error _ => s
  | Except.ok s₂ => s₂

/-- Sort-column options of the order-search route (`src/api/carts.py`). -/
inductive search_sort_options where
  | customer_name
  | item_sku
  | line_item_total
  | timestamp
  deriving DecidableEq, Repr

/-- Sort directions of the order-search route. -/
inductive search_sort_order where
  | asc
  | desc
  deriving DecidableEq, Repr

/-- One line item of a search response. -/
structure SearchLineItem where
  line_item_id : Nat
  item_sku : String
  customer_name : String
  line_item_total : Int
  timestamp : String
  deriving DecidableEq, Repr

/-- Response shape of the order-search route. -/
structure SearchResponse where
  previous : String
  next : String
  results : List SearchLineItem
  deriving DecidableEq, Repr

/-- The `search_orders` route of `src/api/carts.py`: its body is a single
return of a literal dictionary. The store argument models the database
the route could in principle consult. -/
def search_orders (_st : ShopState) (_customer_name _potion_sku _search_page : String)
    (_sort_col : search_sort_options) (_sort_order : search_sort_order) : SearchResponse :=
  { previous := "", next := "",
    results := [{ line_item_id := 1, item_sku := "1 oblivion potion",
                  customer_name := "Scaramouche", line_item_total := 50,
                  timestamp := "2021-01-01T00:00:00Z" }] }

/-- C10: `search_orders` is a constant function — for any two stores and
any two argument vectors it returns the identical fixed response, the
hard-coded single line item with empty pagination tokens. -/
theorem search_orders_constant (st st₂ : ShopState)
    (n p g n₂ p₂ g₂ : String)
    (sc sc₂ : search_sort_options) (so so₂ : search_sort_order) :
    search_orders st n p g sc so = search_orders st₂ n₂ p₂ g₂ sc₂ so₂ ∧
    (search_orders st n p g sc so).previous = "" ∧
    (search_orders st n p g sc so).next = "" ∧
    (search_orders st n p g sc so).results =
      [{ line_item_id := 1, item_sku := "1 oblivion potion",
         customer_name := "Scaramouche", line_item_total := 50,
         timestamp := "2021-01-01T00:00:00Z" }] :=
  ⟨rfl, rfl, rfl, rfl⟩

lemma filter_filter_of_imp (p r : CartItem → Bool) (l : List CartItem)
    (h : ∀ it, p it = true → r it = true) :
    (l.filter r).filter p = l.filter p := by
  induction l with
  | nil => rfl
  | cons it rest ih =>
      by_cases hp : p it = true
      · have hr := h it hp
        simp [List.filter_cons, hp, hr, ih]
      · have hp₂ : p it = false := Bool.eq_false_iff.mpr hp
        by_cases hr : r it = true <;>
          simp [List.filter_cons, hp₂, hr, ih, Bool.eq_false_iff.mpr, *]

lemma filter_map_of_fix (p : CartItem → Bool) (f : CartItem → CartItem) (l : List CartItem)
    (hpres : ∀ it, p (f it) = p it)
    (hfix : ∀ it, p it = true → f it = it) :
    (l.map f).filter p = l.filter p := by
  induction l with
  | nil => rfl
  | cons it rest ih =>
      by_cases hp : p it = true
      · have := hfix it hp
        simp [List.filter_cons, hpres, hp, this, ih]
      · have hp₂ : p it = false := Bool.eq_false_iff.mpr hp
        simp [List.filter_cons, hpres, hp₂, ih]

lemma filter_append_drop (p : CartItem → Bool) (l : List CartItem) (row : CartItem)
    (h : p row = false) :
    (l ++ [row]).filter p = l.filter p := by
  simp [List.filter_append, List.filter_cons, h]


lemma validate_cart_status_open (s : ShopState) (cart_id : Nat) (c : Cart)
    (hc : s.carts.find? (fun x => x.cart_id = cart_id) = some c)
    (hopen : c.status = CartStatus.OPEN) :
    validate_cart_status s cart_id = Except.ok c := by
  unfold validate_cart_status
  rw [hc]
  simp [hopen]

lemma set_item_quantity_ok (s : ShopState) (cart_id : Nat) (item_sku : String)
    (q : Int) (tr : Nat) (c : Cart)
    (hc : s.carts.find? (fun x => x.cart_id = cart_id) = some c)
    (hopen : c.status = CartStatus.OPEN)
    (hsku : s.potions.any (fun p => p.sku = item_sku) = true) :
    set_item_quantity s cart_id item_sku q tr
      = Except.ok (applyItemChange s cart_id item_sku q) := by
  unfold set_item_quantity
  rw [validate_cart_status_open s cart_id c hc hopen]
  simp [hsku]

lemma applyItemChange_frame (s : ShopState) (cart_id : Nat) (item_sku : String)
    (q : Int) :
    (applyItemChange s cart_id item_sku q).potions = s.potions ∧
    (applyItemChange s cart_id item_sku q).global_inventory = s.global_inventory ∧
    (applyItemChange s cart_id item_sku q).ledger_entries = s.ledger_entries ∧
    (applyItemChange s cart_id item_sku q).carts = s.carts ∧
    (applyItemChange s cart_id item_sku q).customers = s.customers ∧
    (applyItemChange s cart_id item_sku q).visits = s.visits := by
  unfold applyItemChange deleteItem updateItem insertItem
  split
  · exact ⟨rfl, rfl, rfl, rfl, rfl, rfl⟩
  · split <;> exact ⟨rfl, rfl, rfl, rfl, rfl, rfl⟩

lemma applyItemChange_other_carts (s : ShopState) (cart_id : Nat) (item_sku : String)
    (q : Int) :
    (applyItemChange s cart_id item_sku q).cart_items.filter
        (fun it => ¬ it.cart_id = cart_id)
      = s.cart_items.filter (fun it => ¬ it.cart_id = cart_id) := by
  unfold applyItemChange deleteItem updateItem insertItem
  split
  · exact filter_filter_of_imp _ _ s.cart_items (by
      intro it hit
      simp only [decide_eq_true_eq] at hit ⊢
      intro hcontra
      exact hit hcontra.1)
  · split
    · exact filter_map_of_fix _ _ s.cart_items
        (by
          intro it
          by_cases hcond : it.cart_id = cart_id ∧ it.item_sku = item_sku <;> simp [hcond])
        (by
          intro it hit
          simp only [decide_eq_true_eq] at hit
          have hnc : ¬ (it.cart_id = cart_id ∧ it.item_sku = item_sku) := by
            intro hcontra
            exact hit hcontra.1
          simp [hnc])
    · exact filter_append_drop _ s.cart_items _ (by simp)

/-- C7: for an open cart and a catalog SKU, `set_item_quantity` succeeds
and changes only that cart's line items — inventory (potions), the
snapshot (gold and totals), the ledger, carts, customers and visits are
untouched, and other carts' line items are preserved; quantity 0 deletes
the line item if present and is a strict no-op (no error, no row,
identical store) if absent, while a positive quantity leaves a line item
of that cart with exactly that quantity. -/
theorem set_item_quantity_frame (s : ShopState) (cart_id : Nat) (item_sku : String)
    (q : Int) (tr : Nat) (c : Cart)
    (hc : s.carts.find? (fun x => x.cart_id = cart_id) = some c)
    (hopen : c.status = CartStatus.OPEN)
    (hsku : s.potions.any (fun p => p.sku = item_sku) = true) :
    ∃ s₂, set_item_quantity s cart_id item_sku q tr = Except.ok s₂ ∧
      s₂.potions = s.potions ∧
      s₂.global_inventory = s.global_inventory ∧
      s₂.ledger_entries = s.ledger_entries ∧
      s₂.carts = s.carts ∧
      s₂.customers = s.customers ∧
      s₂.visits = s.visits ∧
      s₂.cart_items.filter (fun it => ¬ it.cart_id = cart_id)
        = s.cart_items.filter (fun it => ¬ it.cart_id = cart_id) ∧
      (q = 0 →
        ((¬ s.cart_items.any (fun it => it.cart_id = cart_id ∧ it.item_sku = item_sku)) →
            s₂ = s) ∧
        ∀ it ∈ s₂.cart_items, ¬ (it.cart_id = cart_id ∧ it.item_sku = item_sku)) ∧
      (0 < q → ∃ it ∈ s₂.cart_items,
        it.cart_id = cart_id ∧ it.item_sku = item_sku ∧ it.quantity = q) := by
  obtain ⟨h₁, h₂, h₃, h₄, h₅, h₆⟩ := applyItemChange_frame s cart_id item_sku q
  refine ⟨applyItemChange s cart_id item_sku q,
    set_item_quantity_ok s cart_id item_sku q tr c hc hopen hsku,
    h₁, h₂, h₃, h₄, h₅, h₆,
    applyItemChange_other_carts s cart_id item_sku q, ?_, ?_⟩
  · intro hq
    subst hq
    have hdel : applyItemChange s cart_id item_sku 0 = deleteItem s cart_id item_sku := by
      unfold applyItemChange
      rw [if_pos rfl]
    constructor
    · intro hnone
      rw [hdel]
      unfold deleteItem
      rw [List.filter_eq_self.mpr (by
        intro it hit
        simp only [decide_eq_true_eq]
        intro hcontra
        exact hnone (List.any_eq_true.mpr
          ⟨it, hit, by simp [hcontra.1, hcontra.2]⟩))]
    · intro it hit
      rw [hdel] at hit
      unfold deleteItem at hit
      simp only [List.mem_filter, decide_eq_true_eq] at hit
      exact hit.2
  · intro hq
    have hq0 : ¬ q = 0 := by
      intro h
      rw [h] at hq
      exact lt_irrefl 0 hq
    have hne : applyItemChange s cart_id item_sku q
        = if s.cart_items.any (fun it => it.cart_id = cart_id ∧ it.item_sku = item_sku)
          then updateItem s cart_id item_sku q
          else insertItem s cart_id item_sku q := by
      unfold applyItemChange
      rw [if_neg hq0]
    rw [hne]
    by_cases hany : s.cart_items.any
        (fun it => it.cart_id = cart_id ∧ it.item_sku = item_sku) = true
    · rw [if_pos hany]
      obtain ⟨it₀, hit₀, hprop⟩ := List.any_eq_true.mp hany
      simp only [decide_eq_true_eq] at hprop
      refine ⟨{ it₀ with quantity := q }, ?_, hprop.1, hprop.2, rfl⟩
      unfold updateItem
      exact List.mem_map.mpr ⟨it₀, hit₀, by simp [hprop.1, hprop.2]⟩
    · rw [if_neg hany]
      refine ⟨{ cart_id := cart_id, item_sku := item_sku, quantity := q }, ?_, rfl, rfl, rfl⟩
      unfold insertItem
      simp

/-- Witness for C7: on the concrete example store, setting quantity 2 of
`GREEN_POTION` in open cart 1 succeeds with the frame properties. -/
theorem set_item_quantity_frame_witness :
    ∃ s₂, set_item_quantity exState 1 "GREEN_POTION" 2 1 = Except.ok s₂ ∧
      s₂.potions = exState.potions ∧
      s₂.global_inventory = exState.global_inventory ∧
      s₂.ledger_entries = exState.ledger_entries ∧
      s₂.carts = exState.carts ∧
      s₂.customers = exState.customers ∧
      s₂.visits = exState.visits ∧
      s₂.cart_items.filter (fun it => ¬ it.cart_id = 1)
        = exState.cart_items.filter (fun it => ¬ it.cart_id = 1) ∧
      ((2 : Int) = 0 →
        ((¬ exState.cart_items.any
            (fun it => it.cart_id = 1 ∧ it.item_sku = "GREEN_POTION")) → s₂ = exState) ∧
        ∀ it ∈ s₂.cart_items, ¬ (it.cart_id = 1 ∧ it.item_sku = "GREEN_POTION")) ∧
      ((0 : Int) < 2 → ∃ it ∈ s₂.cart_items,
        it.cart_id = 1 ∧ it.item_sku = "GREEN_POTION" ∧ it.quantity = 2) :=
  set_item_quantity_frame exState 1 "GREEN_POTION" 2 1
    { cart_id := 1, customer_name := "Ada", character_class := "mage",
      level := 3, visit_id := 1, status := CartStatus.OPEN,
      created_at_time_reference := 1 }
    (by decide) (by decide) (by decide)

lemma process_checkout_insufficient (s : ShopState) (cart_id : Nat) (pay : String)
    (t : Nat) (c : Cart) (pairs : List (CartItem × Potion))
    (hc : s.carts.find? (fun x => x.cart_id = cart_id) = some c)
    (hopen : c.status = CartStatus.OPEN)
    (hres : resolveItems s.potions (itemsOf s cart_id) = some pairs)
    (hex : ∃ ip ∈ pairs, ip.2.current_quantity < ip.1.quantity) :
    process_checkout s cart_id pay t = Except.error ShopError.InsufficientStock := by
  unfold process_checkout
  rw [validate_cart_status_open s cart_id c hc hopen]
  have hne : (itemsOf s cart_id).isEmpty = false := by
    cases hitems : itemsOf s cart_id with
    | nil =>
        rw [hitems] at hres
        simp only [resolveItems, Option.some.injEq] at hres
        subst hres
        obtain ⟨ip, hip, _⟩ := hex
        cases hip
    | cons a l => rfl
  have hany : pairs.any (fun ip => ip.2.current_quantity < ip.1.quantity) = true := by
    obtain ⟨ip, hip, hlt⟩ := hex
    exact List.any_eq_true.mpr ⟨ip, hip, by simpa using hlt⟩
  simp [hne, hres, hany]

/-- C4: if any line item of an open cart requests more than that SKU's
`current_quantity`, `process_checkout` fails with `InsufficientStock`,
and the route leaves the whole store unchanged — no potion quantity,
gold value, ledger entry or cart status is modified. -/
theorem checkout_insufficient_stock (s : ShopState) (cart_id : Nat) (pay : String)
    (t : Nat) (c : Cart) (pairs : List (CartItem × Potion))
    (ht : s.game_times.head? = some t)
    (hc : s.carts.find? (fun x => x.cart_id = cart_id) = some c)
    (hopen : c.status = CartStatus.OPEN)
    (hres : resolveItems s.potions (itemsOf s cart_id) = some pairs)
    (hex : ∃ ip ∈ pairs, ip.2.current_quantity < ip.1.quantity) :
    process_checkout s cart_id pay t = Except.error ShopError.InsufficientStock ∧
    checkoutRun s cart_id pay = (s, Except.error ShopError.InsufficientStock) := by
  have hpc := process_checkout_insufficient s cart_id pay t c pairs hc hopen hres hex
  refine ⟨hpc, ?_⟩
  unfold checkoutRun
  rw [ht]
  simp [hpc]

/-- An over-requesting variant of the example store: open cart 1 asks for
5 units of `GREEN_POTION` while only 2 are in stock. -/
def exStateOver : ShopState :=
  { exState with cart_items := [ { cart_id := 1, item_sku := "GREEN_POTION", quantity := 5 } ] }

/-- Witness for C4: on the over-requesting store, checkout fails with
`InsufficientStock` and the route leaves the store unchanged. -/
theorem checkout_insufficient_stock_witness :
    process_checkout exStateOver 1 "gold" 2 = Except.error ShopError.InsufficientStock ∧
    checkoutRun exStateOver 1 "gold" = (exStateOver, Except.error ShopError.InsufficientStock) :=
  checkout_insufficient_stock exStateOver 1 "gold" 2 exCart
    [({ cart_id := 1, item_sku := "GREEN_POTION", quantity := 5 }, exGreen)]
    (by decide) (by decide) (by decide) (by decide) (by decide)

lemma find?_key_self {α β : Type} [DecidableEq β] (key : α → β) :
    ∀ (l : List α), ((l.map key).Pairwise (fun a b => a ≠ b)) → ∀ x ∈ l,
      l.find? (fun y => key y = key x) = some x := by
  intro l
  induction l with
  | nil => intro _ x hx; cases hx
  | cons a rest ih =>
      intro hpw x hx
      simp only [List.map_cons, List.pairwise_cons] at hpw
      rcases List.mem_cons.mp hx with rfl | hx
      · exact List.find?_cons_of_pos _ (by simp)
      · have hne : ¬ (key a = key x) :=
          hpw.1 (key x) (List.mem_map.mpr ⟨x, hx, rfl⟩)
        rw [List.find?_cons_of_neg _ (by simpa using hne)]
        exact ih hpw.2 x hx

lemma process_checkout_ok (s : ShopState) (cart_id : Nat) (pay : String)
    (t : Nat) (c : Cart) (pairs : List (CartItem × Potion))
    (hc : s.carts.find? (fun x => x.cart_id = cart_id) = some c)
    (hopen : c.status = CartStatus.OPEN)
    (hne : (itemsOf s cart_id).isEmpty = false)
    (hres : resolveItems s.potions (itemsOf s cart_id) = some pairs)
    (hstock : ∀ ip ∈ pairs, ip.1.quantity ≤ ip.2.current_quantity) :
    process_checkout s cart_id pay t =
      Except.ok
        (checkoutApply s cart_id t (itemsOf s cart_id)
          (checkoutTotals (itemsOf s cart_id) pairs),
         checkoutTotals (itemsOf s cart_id) pairs) := by
  unfold process_checkout
  rw [validate_cart_status_open s cart_id c hc hopen]
  have hany : pairs.any (fun ip => ip.2.current_quantity < ip.1.quantity) = false := by
    rw [List.any_eq_false]
    intro ip hip
    simpa [not_lt] using hstock ip hip
  simp [hne, hres, hany]

/-- Counterexample to C3: an open cart with no line items vacuously
satisfies the premise that all its line items are within stock, yet
`process_checkout` fails with `EmptyCart` instead of succeeding. -/
theorem checkout_empty_cart_fails :
    process_checkout { exState with cart_items := [] } 1 "gold" 2
      = Except.error ShopError.EmptyCart := by
  rfl

/-- C3 (amended): for every open cart with at least one line item, all of
whose line items resolve against the catalog and request no more than the
stocked quantity, `process_checkout` succeeds; it returns
`total_gold_paid` equal to the sum of price times quantity and
`total_potions_bought` equal to the sum of quantities, adds the gold paid
to the snapshot, appends exactly one `CART_CHECKOUT` ledger entry with
the aggregate deltas, marks the cart `CHECKED_OUT`, and decrements each
requested SKU's `current_quantity` by the requested quantity while
leaving unrequested potions unchanged. -/
theorem checkout_success (s : ShopState) (cart_id : Nat) (pay : String)
    (t : Nat) (c : Cart) (pairs : List (CartItem × Potion))
    (hc : s.carts.find? (fun x => x.cart_id = cart_id) = some c)
    (hopen : c.status = CartStatus.OPEN)
    (hne : (itemsOf s cart_id).isEmpty = false)
    (hres : resolveItems s.potions (itemsOf s cart_id) = some pairs)
    (hstock : ∀ ip ∈ pairs, ip.1.quantity ≤ ip.2.current_quantity)
    (hdist : ((itemsOf s cart_id).map (fun it => it.item_sku)).Pairwise
      (fun a b => a ≠ b)) :
    ∃ s₂ r, process_checkout s cart_id pay t = Except.ok (s₂, r) ∧
      r.total_gold_paid = (pairs.map (fun ip => ip.2.price * ip.1.quantity)).sum ∧
      r.total_potions_bought = ((itemsOf s cart_id).map (fun it => it.quantity)).sum ∧
      s₂.global_inventory.gold = s.global_inventory.gold + r.total_gold_paid ∧
      s₂.global_inventory.total_potions
        = s.global_inventory.total_potions - r.total_potions_bought ∧
      (∃ e, s₂.ledger_entries = s.ledger_entries ++ [e] ∧
        e.entry_type = EntryType.CART_CHECKOUT ∧
        e.gold_change = r.total_gold_paid ∧
        e.potion_change = - r.total_potions_bought) ∧
      s₂.carts.find? (fun x => x.cart_id = cart_id)
        = some { c with status := CartStatus.CHECKED_OUT } ∧
      (∀ it ∈ itemsOf s cart_id, ∀ p ∈ s.potions, p.sku = it.item_sku →
        { p with current_quantity := p.current_quantity - it.quantity } ∈ s₂.potions) ∧
      (∀ p ∈ s.potions, (∀ it ∈ itemsOf s cart_id, ¬ it.item_sku = p.sku) →
        p ∈ s₂.potions) := by
  have hcid : c.cart_id = cart_id := by
    have := List.find?_some hc
    simpa using this
  refine ⟨checkoutApply s cart_id t (itemsOf s cart_id)
      (checkoutTotals (itemsOf s cart_id) pairs),
    checkoutTotals (itemsOf s cart_id) pairs,
    process_checkout_ok s cart_id pay t c pairs hc hopen hne hres hstock,
    rfl, rfl, rfl, rfl, ⟨checkoutEntry s t (checkoutTotals (itemsOf s cart_id) pairs),
      rfl, rfl, rfl, rfl⟩, ?_, ?_, ?_⟩
  · show (s.carts.map (fun x =>
        if x.cart_id = cart_id then { x with status := CartStatus.CHECKED_OUT } else x)).find?
          (fun x => x.cart_id = cart_id)
      = some { c with status := CartStatus.CHECKED_OUT }
    rw [List.find?_map]
    have hcomp : ((fun x : Cart => decide (x.cart_id = cart_id)) ∘ (fun x =>
        if x.cart_id = cart_id then { x with status := CartStatus.CHECKED_OUT } else x))
        = (fun x : Cart => decide (x.cart_id = cart_id)) := by
      funext x
      by_cases hx : x.cart_id = cart_id <;> simp [hx]
    rw [hcomp, hc]
    simp [Option.map, hcid]
  · intro it hit p hp hsk
    show _ ∈ s.potions.map (fun p =>
      match (itemsOf s cart_id).find? (fun j => j.item_sku = p.sku) with
      | some j => { p with current_quantity := p.current_quantity - j.quantity }
      | none => p)
    refine List.mem_map.mpr ⟨p, hp, ?_⟩
    have hfind : (itemsOf s cart_id).find? (fun j => j.item_sku = p.sku) = some it := by
      have := find?_key_self (fun j : CartItem => j.item_sku) (itemsOf s cart_id) hdist it hit
      rw [hsk]
      exact this
    rw [hfind]
  · intro p hp hnot
    show _ ∈ s.potions.map (fun p =>
      match (itemsOf s cart_id).find? (fun j => j.item_sku = p.sku) with
      | some j => { p with current_quantity := p.current_quantity - j.quantity }
      | none => p)
    refine List.mem_map.mpr ⟨p, hp, ?_⟩
    have hfind : (itemsOf s cart_id).find? (fun j => j.item_sku = p.sku) = none := by
      rw [List.find?_eq_none]
      intro j hj
      simpa using hnot j hj
    rw [hfind]

/-- Witness for C3 (amended): checking out cart 1 of the example store
(one line item, `GREEN_POTION`, quantity 1, stock 2) succeeds with the
stated totals, snapshot, ledger, cart-status and inventory effects. -/
theorem checkout_success_witness :
    ∃ s₂ r, process_checkout exState 1 "gold" 2 = Except.ok (s₂, r) ∧
      r.total_gold_paid =
        (([({ cart_id := 1, item_sku := "GREEN_POTION", quantity := 1 }, exGreen)].map
          (fun ip : CartItem × Potion => ip.2.price * ip.1.quantity)).sum) ∧
      r.total_potions_bought = ((itemsOf exState 1).map (fun it => it.quantity)).sum ∧
      s₂.global_inventory.gold = exState.global_inventory.gold + r.total_gold_paid ∧
      s₂.global_inventory.total_potions
        = exState.global_inventory.total_potions - r.total_potions_bought ∧
      (∃ e, s₂.ledger_entries = exState.ledger_entries ++ [e] ∧
        e.entry_type = EntryType.CART_CHECKOUT ∧
        e.gold_change = r.total_gold_paid ∧
        e.potion_change = - r.total_potions_bought) ∧
      s₂.carts.find? (fun x => x.cart_id = 1)
        = some { exCart with status := CartStatus.CHECKED_OUT } ∧
      (∀ it ∈ itemsOf exState 1, ∀ p ∈ exState.potions, p.sku = it.item_sku →
        { p with current_quantity := p.current_quantity - it.quantity } ∈ s₂.potions) ∧
      (∀ p ∈ exState.potions, (∀ it ∈ itemsOf exState 1, ¬ it.item_sku = p.sku) →
        p ∈ s₂.potions) :=
  checkout_success exState 1 "gold" 2 exCart
    [({ cart_id := 1, item_sku := "GREEN_POTION", quantity := 1 }, exGreen)]
    (by decide) (by decide) (by decide) (by decide) (by decide) (by decide)

lemma decPotion_sku (items : List CartItem) (p : Potion) :
    (decPotion items p).sku = p.sku := by
  unfold decPotion
  split <;> rfl

lemma find?_map_pres {α : Type} (f : α → α) (p : α → Bool) (l : List α)
    (h : ∀ x, p (f x) = p x) :
    (l.map f).find? p = (l.find? p).map f := by
  rw [List.find?_map, show p ∘ f = p from funext h]

lemma checkout_race_helper (s : ShopState) (x : String) (a b : Nat)
    (paya payb : String) (ta tb : Nat) (carta cartb : Cart) (p₀ : Potion)
    (hca : s.carts.find? (fun v => v.cart_id = a) = some carta)
    (haopen : carta.status = CartStatus.OPEN)
    (hcb : s.carts.find? (fun v => v.cart_id = b) = some cartb)
    (hbopen : cartb.status = CartStatus.OPEN)
    (hba : ¬ b = a)
    (hia : itemsOf s a = [{ cart_id := a, item_sku := x, quantity := 1 }])
    (hib : itemsOf s b = [{ cart_id := b, item_sku := x, quantity := 1 }])
    (hfx : s.potions.find? (fun p => p.sku = x) = some p₀)
    (hall1 : ∀ p ∈ s.potions, p.sku = x → p.current_quantity = 1)
    (hnn : ∀ p ∈ s.potions, 0 ≤ p.current_quantity) :
    ∃ s₁ r₁, process_checkout s a paya ta = Except.ok (s₁, r₁) ∧
      process_checkout s₁ b payb tb = Except.error ShopError.InsufficientStock ∧
      (∀ p ∈ s₁.potions, 0 ≤ p.current_quantity) := by
  have hp₀mem : p₀ ∈ s.potions := List.mem_of_find?_eq_some hfx
  have hp₀sku : p₀.sku = x := by simpa using List.find?_some hfx
  have hp₀qty : p₀.current_quantity = 1 := hall1 p₀ hp₀mem hp₀sku
  have hbid : cartb.cart_id = b := by simpa using List.find?_some hcb
  have hresa : resolveItems s.potions (itemsOf s a)
      = some [({ cart_id := a, item_sku := x, quantity := 1 }, p₀)] := by
    rw [hia]
    simp [resolveItems, hfx]
  have hok := process_checkout_ok s a paya ta carta
    [({ cart_id := a, item_sku := x, quantity := 1 }, p₀)]
    hca haopen (by rw [hia]; rfl) hresa
    (by
      intro ip hip
      simp only [List.mem_singleton] at hip
      subst hip
      simp [hp₀qty])
  refine ⟨_, _, hok, ?_, ?_⟩
  · have hfb : (checkoutApply s a ta (itemsOf s a)
        (checkoutTotals (itemsOf s a)
          [({ cart_id := a, item_sku := x, quantity := 1 }, p₀)])).carts.find?
          (fun v => v.cart_id = b) = some cartb := by
      show (s.carts.map (fun c =>
          if c.cart_id = a then { c with status := CartStatus.CHECKED_OUT } else c)).find?
          (fun v => v.cart_id = b) = some cartb
      rw [find?_map_pres _ _ _ (fun v => by
        by_cases hv : v.cart_id = a <;> simp [hv])]
      rw [hcb]
      have : ¬ cartb.cart_id = a := by rw [hbid]; exact hba
      simp [Option.map, this]
    have hdecp₀ : decPotion (itemsOf s a) p₀ = { p₀ with current_quantity := 0 } := by
      unfold decPotion
      rw [hia, hp₀sku]
      simp [hp₀qty]
    have hfx₁ : (checkoutApply s a ta (itemsOf s a)
        (checkoutTotals (itemsOf s a)
          [({ cart_id := a, item_sku := x, quantity := 1 }, p₀)])).potions.find?
          (fun p => p.sku = x) = some (decPotion (itemsOf s a) p₀) := by
      show (s.potions.map (decPotion (itemsOf s a))).find? (fun p => p.sku = x) = _
      rw [find?_map_pres _ _ _ (fun p => by simp [decPotion_sku]), hfx]
      rfl
    have hitb : itemsOf (checkoutApply s a ta (itemsOf s a)
        (checkoutTotals (itemsOf s a)
          [({ cart_id := a, item_sku := x, quantity := 1 }, p₀)])) b
        = [{ cart_id := b, item_sku := x, quantity := 1 }] := hib
    have hresb : resolveItems (checkoutApply s a ta (itemsOf s a)
        (checkoutTotals (itemsOf s a)
          [({ cart_id := a, item_sku := x, quantity := 1 }, p₀)])).potions
        (itemsOf (checkoutApply s a ta (itemsOf s a)
          (checkoutTotals (itemsOf s a)
            [({ cart_id := a, item_sku := x, quantity := 1 }, p₀)])) b)
        = some [({ cart_id := b, item_sku := x, quantity := 1 },
                 decPotion (itemsOf s a) p₀)] := by
      rw [hitb]
      simp [resolveItems, hfx₁]
    refine process_checkout_insufficient _ b payb tb cartb _ hfb hbopen hresb ?_
    refine ⟨({ cart_id := b, item_sku := x, quantity := 1 },
      decPotion (itemsOf s a) p₀), by simp, ?_⟩
    rw [hdecp₀]
    show (0 : Int) < 1
    decide
  · intro p' hp'
    have hp'₂ : p' ∈ s.potions.map (decPotion (itemsOf s a)) := hp'
    obtain ⟨p, hp, rfl⟩ := List.mem_map.mp hp'₂
    unfold decPotion
    cases hf : (itemsOf s a).find? (fun it => it.item_sku = p.sku) with
    | none => simpa using hnn p hp
    | some j =>
        have hj := List.mem_of_find?_eq_some hf
        rw [hia] at hj
        have hjA : j = { cart_id := a, item_sku := x, quantity := 1 } := by
          simpa using hj
        subst hjA
        have hps : p.sku = x := by
          have := List.find?_some hf
          simp only [decide_eq_true_eq] at this
          exact this.symm
        have hq := hall1 p hp hps
        simp [hq]

/-- C9: two checkouts compete for the same SKU with `current_quantity = 1`,
each open cart requesting 1 unit. Each checkout runs in one atomic
transaction (spec section 5), so every interleaving is one of the two
serial orders; in either order the first checkout succeeds, the second
fails with `InsufficientStock`, and no potion quantity is ever negative
in any intermediate or final state. -/
theorem checkout_race (s : ShopState) (x : String) (a b : Nat)
    (paya payb : String) (ta tb : Nat) (carta cartb : Cart) (p₀ : Potion)
    (hca : s.carts.find? (fun v => v.cart_id = a) = some carta)
    (haopen : carta.status = CartStatus.OPEN)
    (hcb : s.carts.find? (fun v => v.cart_id = b) = some cartb)
    (hbopen : cartb.status = CartStatus.OPEN)
    (hab : ¬ a = b)
    (hia : itemsOf s a = [{ cart_id := a, item_sku := x, quantity := 1 }])
    (hib : itemsOf s b = [{ cart_id := b, item_sku := x, quantity := 1 }])
    (hfx : s.potions.find? (fun p => p.sku = x) = some p₀)
    (hall1 : ∀ p ∈ s.potions, p.sku = x → p.current_quantity = 1)
    (hnn : ∀ p ∈ s.potions, 0 ≤ p.current_quantity) :
    (∃ s₁ r₁, process_checkout s a paya ta = Except.ok (s₁, r₁) ∧
      process_checkout s₁ b payb tb = Except.error ShopError.InsufficientStock ∧
      (∀ p ∈ s₁.potions, 0 ≤ p.current_quantity)) ∧
    (∃ s₁ r₁, process_checkout s b payb tb = Except.ok (s₁, r₁) ∧
      process_checkout s₁ a paya ta = Except.error ShopError.InsufficientStock ∧
      (∀ p ∈ s₁.potions, 0 ≤ p.current_quantity)) :=
  ⟨checkout_race_helper s x a b paya payb ta tb carta cartb p₀
      hca haopen hcb hbopen (fun h => hab h.symm) hia hib hfx hall1 hnn,
   checkout_race_helper s x b a payb paya tb ta cartb carta p₀
      hcb hbopen hca haopen hab hib hia hfx hall1 hnn⟩

/-- A second open cart with identifier 2. -/
def exCartB : Cart := { exCart with cart_id := 2 }

/-- A catalog row with exactly one unit in stock. -/
def exRed1 : Potion :=
  { sku := "RED_POTION", name := "Elixir of Strength", red_ml := 100,
    green_ml := 0, blue_ml := 0, dark_ml := 0, total_ml := 100,
    price := 50, description := "last one", current_quantity := 1 }

/-- A store with one unit of `RED_POTION` and two open carts each
requesting one unit of it. -/
def exRace : ShopState :=
  { global_inventory :=
      { gold := 100, red_ml := 0, green_ml := 0, blue_ml := 0, dark_ml := 0,
        total_ml := 0, total_potions := 1,
        potion_capacity_units := 1, ml_capacity_units := 1 },
    potions := [exRed1],
    carts := [exCart, exCartB],
    cart_items := [ { cart_id := 1, item_sku := "RED_POTION", quantity := 1 },
                    { cart_id := 2, item_sku := "RED_POTION", quantity := 1 } ],
    ledger_entries := [],
    customers := [],
    visits := [ { visit_id := 1, time_reference := 1 } ],
    game_times := [1],
    next_cart_id := 3,
    next_entry_id := 1 }

/-- Witness for C9: on the concrete race store, in both serial orders the
first checkout succeeds, the second fails with `InsufficientStock`, and
quantities stay non-negative. -/
theorem checkout_race_witness :
    (∃ s₁ r₁, process_checkout exRace 1 "gold" 1 = Except.ok (s₁, r₁) ∧
      process_checkout s₁ 2 "gold" 1 = Except.error ShopError.InsufficientStock ∧
      (∀ p ∈ s₁.potions, 0 ≤ p.current_quantity)) ∧
    (∃ s₁ r₁, process_checkout exRace 2 "gold" 1 = Except.ok (s₁, r₁) ∧
      process_checkout s₁ 1 "gold" 1 = Except.error ShopError.InsufficientStock ∧
      (∀ p ∈ s₁.potions, 0 ≤ p.current_quantity)) :=
  checkout_race exRace "RED_POTION" 1 2 "gold" "gold" 1 1 exCart exCartB exRed1
    (by decide) (by decide) (by decide) (by decide) (by decide)
    (by decide) (by decide) (by decide) (by decide) (by decide)

/-- Sum of the gold deltas of a list of ledger entries. -/
def goldSum (l : List LedgerEntry) : Int := (l.map (fun e => e.gold_change)).sum

/-- Sum of the red ml deltas. -/
def redSum (l : List LedgerEntry) : Int := (l.map (fun e => e.red_ml_change)).sum

/-- Sum of the green ml deltas. -/
def greenSum (l : List LedgerEntry) : Int := (l.map (fun e => e.green_ml_change)).sum

/-- Sum of the blue ml deltas. -/
def blueSum (l : List LedgerEntry) : Int := (l.map (fun e => e.blue_ml_change)).sum

/-- Sum of the dark ml deltas. -/
def darkSum (l : List LedgerEntry) : Int := (l.map (fun e => e.dark_ml_change)).sum

/-- Sum of the aggregate potion-count deltas. -/
def potionSum (l : List LedgerEntry) : Int := (l.map (fun e => e.potion_change)).sum

/-- The reconciliation predicate exactly as the claim states it: summing
the deltas of all ledger entries since the last reset yields the current
snapshot values (gold, per-color ml, total ml, total potions). -/
def reconciles (s : ShopState) : Prop :=
  s.global_inventory.gold = goldSum s.ledger_entries ∧
  s.global_inventory.red_ml = redSum s.ledger_entries ∧
  s.global_inventory.green_ml = greenSum s.ledger_entries ∧
  s.global_inventory.blue_ml = blueSum s.ledger_entries ∧
  s.global_inventory.dark_ml = darkSum s.ledger_entries ∧
  s.global_inventory.total_ml = redSum s.ledger_entries + greenSum s.ledger_entries
    + blueSum s.ledger_entries + darkSum s.ledger_entries ∧
  s.global_inventory.total_potions = potionSum s.ledger_entries

/-- The reconciliation predicate that actually holds: the snapshot equals
the reset baseline (gold 100, zero ml, zero potions) plus the ledger
sums, because the reset seeds gold 100 without writing a ledger entry. -/
def reconciledFromReset (s : ShopState) : Prop :=
  s.global_inventory.gold = 100 + goldSum s.ledger_entries ∧
  s.global_inventory.red_ml = redSum s.ledger_entries ∧
  s.global_inventory.green_ml = greenSum s.ledger_entries ∧
  s.global_inventory.blue_ml = blueSum s.ledger_entries ∧
  s.global_inventory.dark_ml = darkSum s.ledger_entries ∧
  s.global_inventory.total_ml = redSum s.ledger_entries + greenSum s.ledger_entries
    + blueSum s.ledger_entries + darkSum s.ledger_entries ∧
  s.global_inventory.total_potions = potionSum s.ledger_entries

/-- States reachable through the embedded operations, starting from any
completed reset. Each route leaves the store unchanged when it fails. -/
inductive Reachable : ShopState → Prop where
  | reset (s : ShopState) : Reachable (resetApply s)
  | create_cart (s : ShopState) (cust : CustomerRec) :
      Reachable s → Reachable (createCartRun s cust)
  | set_item (s : ShopState) (cart_id : Nat) (item_sku : String) (q : Int) :
      Reachable s → Reachable (setItemRun s cart_id item_sku q)
  | checkout (s : ShopState) (cart_id : Nat) (pay : String) :
      Reachable s → Reachable (checkoutRun s cart_id pay).1
  | visit (s : ShopState) (visit_id : Nat) (custs : List CustomerRec) :
      Reachable s → Reachable (visitRun s visit_id custs)

lemma createCartRun_frame (s : ShopState) (cust : CustomerRec) :
    (createCartRun s cust).global_inventory = s.global_inventory ∧
    (createCartRun s cust).ledger_entries = s.ledger_entries := by
  unfold createCartRun create_cart
  rcases hgt : s.game_times.head? with _ | t <;>
    rcases hv : s.visits.head? with _ | v <;>
    simp [hgt, hv]

lemma set_item_quantity_ok_shape (s : ShopState) (cart_id : Nat) (item_sku : String)
    (q : Int) (tr : Nat) (s₂ : ShopState)
    (h : set_item_quantity s cart_id item_sku q tr = Except.ok s₂) :
    s₂ = applyItemChange s cart_id item_sku q := by
  unfold set_item_quantity at h
  split at h
  · cases h
  · split at h
    · cases h
    · injection h with h'
      exact h'.symm

lemma setItemRun_frame (s : ShopState) (cart_id : Nat) (item_sku : String) (q : Int) :
    (setItemRun s cart_id item_sku q).global_inventory = s.global_inventory ∧
    (setItemRun s cart_id item_sku q).ledger_entries = s.ledger_entries := by
  unfold setItemRun
  rcases hgt : s.game_times.head? with _ | t
  · simp [hgt]
  · simp only [hgt]
    cases hsi : set_item_quantity s cart_id item_sku q t with
    | error e => simp
    | ok s₂ =>
        have hsh := set_item_quantity_ok_shape s cart_id item_sku q t s₂ hsi
        subst hsh
        obtain ⟨_, hg, hl, _, _, _⟩ := applyItemChange_frame s cart_id item_sku q
        exact ⟨hg, hl⟩

lemma visitRun_frame (s : ShopState) (visit_id : Nat) (custs : List CustomerRec) :
    (visitRun s visit_id custs).global_inventory = s.global_inventory ∧
    (visitRun s visit_id custs).ledger_entries = s.ledger_entries := by
  unfold visitRun record_customer_visit
  rcases hgt : s.game_times.head? with _ | t <;> simp [hgt]

lemma process_checkout_ok_shape (s : ShopState) (cart_id : Nat) (pay : String)
    (t : Nat) (s₂ : ShopState) (r : CheckoutResult)
    (h : process_checkout s cart_id pay t = Except.ok (s₂, r)) :
    s₂ = checkoutApply s cart_id t (itemsOf s cart_id) r := by
  unfold process_checkout at h
  split at h
  · cases h
  · split at h
    · cases h
    · split at h
      · cases h
      · split at h
        · cases h
        · injection h with h'
          injection h' with h1 h2
          subst h1
          subst h2
          rfl

lemma checkoutApply_reconciled (s : ShopState) (cid t : Nat)
    (items : List CartItem) (r : CheckoutResult)
    (ih : reconciledFromReset s) :
    reconciledFromReset (checkoutApply s cid t items r) := by
  obtain ⟨hg, hr, hgr, hb, hd, htm, htp⟩ := ih
  refine ⟨?_, ?_, ?_, ?_, ?_, ?_, ?_⟩
  · show s.global_inventory.gold + r.total_gold_paid
      = 100 + goldSum (s.ledger_entries ++ [checkoutEntry s t r])
    rw [hg]
    simp [goldSum, checkoutEntry]
    ring
  · show s.global_inventory.red_ml = redSum (s.ledger_entries ++ [checkoutEntry s t r])
    rw [hr]
    simp [redSum, checkoutEntry]
  · show s.global_inventory.green_ml = greenSum (s.ledger_entries ++ [checkoutEntry s t r])
    rw [hgr]
    simp [greenSum, checkoutEntry]
  · show s.global_inventory.blue_ml = blueSum (s.ledger_entries ++ [checkoutEntry s t r])
    rw [hb]
    simp [blueSum, checkoutEntry]
  · show s.global_inventory.dark_ml = darkSum (s.ledger_entries ++ [checkoutEntry s t r])
    rw [hd]
    simp [darkSum, checkoutEntry]
  · show s.global_inventory.total_ml
      = redSum (s.ledger_entries ++ [checkoutEntry s t r])
        + greenSum (s.ledger_entries ++ [checkoutEntry s t r])
        + blueSum (s.ledger_entries ++ [checkoutEntry s t r])
        + darkSum (s.ledger_entries ++ [checkoutEntry s t r])
    rw [htm]
    simp [redSum, greenSum, blueSum, darkSum, checkoutEntry]
  · show s.global_inventory.total_potions - r.total_potions_bought
      = potionSum (s.ledger_entries ++ [checkoutEntry s t r])
    rw [htp]
    simp [potionSum, checkoutEntry]
    ring

/-- Counterexample to C1: the state immediately after a completed reset
is reachable, yet summing the ledger deltas does not reproduce the
snapshot — the ledger is empty (sum 0 gold) while the snapshot holds
gold 100, because reset writes no ledger entry for its seed grant. -/
theorem reconciliation_fails_after_reset :
    Reachable (resetApply exState) ∧ ¬ reconciles (resetApply exState) := by
  refine ⟨Reachable.reset exState, ?_⟩
  intro hrec
  have h1 := hrec.1
  rw [resetApply_snapshot, resetApply_ledger] at h1
  simp [resetSnapshot, goldSum] at h1

/-- C1 (amended): in every reachable state, the snapshot equals the reset
baseline (gold 100, zero ml, zero potions) plus the sums of the ledger
deltas written since the last reset, for gold, each color ml, total ml
and total potions. -/
theorem ledger_reconciliation (s : ShopState) (h : Reachable s) :
    reconciledFromReset s := by
  induction h with
  | reset s =>
      unfold reconciledFromReset
      rw [resetApply_snapshot, resetApply_ledger]
      simp [resetSnapshot, goldSum, redSum, greenSum, blueSum, darkSum, potionSum]
  | create_cart s cust hs ih =>
      obtain ⟨hg, hl⟩ := createCartRun_frame s cust
      unfold reconciledFromReset at ih ⊢
      rw [hg, hl]
      exact ih
  | set_item s cid sku q hs ih =>
      obtain ⟨hg, hl⟩ := setItemRun_frame s cid sku q
      unfold reconciledFromReset at ih ⊢
      rw [hg, hl]
      exact ih
  | checkout s cid pay hs ih =>
      unfold checkoutRun
      rcases hgt : s.game_times.head? with _ | t
      · simpa [hgt] using ih
      · simp only [hgt]
        cases hpc : process_checkout s cid pay t with
        | error e => simpa using ih
        | ok p =>
            obtain ⟨s₂, r⟩ := p
            have hsh := process_checkout_ok_shape s cid pay t s₂ r hpc
            show reconciledFromReset s₂
            rw [hsh]
            exact checkoutApply_reconciled s cid t (itemsOf s cid) r ih
  | visit s vid custs hs ih =>
      obtain ⟨hg, hl⟩ := visitRun_frame s vid custs
      unfold reconciledFromReset at ih ⊢
      rw [hg, hl]
      exact ih

/-- Witness for C1 (amended): the state right after resetting the example
store is reachable and reconciled from the baseline. -/
theorem ledger_reconciliation_witness :
    reconciledFromReset (resetApply exState) :=
  ledger_reconciliation (resetApply exState) (Reachable.reset exState)
